import Mathlib

/-!
Shallow embedding of the CHIP-8 emulator sources (src/main.rs, src/ops.rs).
Machine integers are modelled as Nat with explicit wraparound where the Rust
release build would wrap: u8 arithmetic modulo 256, u16 arithmetic modulo
65536. Array writes are modelled as pointwise function updates. The print
statements of the source carry no machine state and are dropped, except the
BEEP notification inside Chip8::cycle, which cycle returns as a Bool event.
-/

namespace Chip8Emu

/-- Pointwise update of a Nat-indexed store, modelling an array write. -/
def upd (f : Nat → Nat) (k v : Nat) : Nat → Nat :=
  fun a => if a = k then v else f a

/-- Machine state of struct Chip8 (main.rs lines 22-38). Registers, memory,
display and stack are Nat-indexed stores; the injected thread_rng is modelled
as a byte stream rng read at cursor rng_pos. -/
structure Chip8 where
  pc : Nat
  opcode : Nat
  i : Nat
  registers : Nat → Nat
  memory : Nat → Nat
  display : Nat → Nat
  delay_timer : Nat
  sound_timer : Nat
  sp : Nat
  stack : Nat → Nat
  rng : Nat → Nat
  rng_pos : Nat

/-- ops.rs decode_register_x: ((opcode & 0x0F00) >> 8) as u8. -/
def decode_register_x (opcode : Nat) : Nat :=
  ((opcode &&& 0x0F00) >>> 8) % 256

/-- ops.rs decode_register_y: ((opcode & 0x00F0) >> 4) as u8. -/
def decode_register_y (opcode : Nat) : Nat :=
  ((opcode &&& 0x00F0) >>> 4) % 256

/-- ops.rs decode_registers. -/
def decode_registers (opcode : Nat) : Nat × Nat :=
  (decode_register_x opcode, decode_register_y opcode)

/-- ops.rs decode_byte: (opcode & 0x00FF) as u8. -/
def decode_byte (opcode : Nat) : Nat :=
  (opcode &&& 0x00FF) % 256

/-- ops.rs decode_short: opcode & 0x0FFF. -/
def decode_short (opcode : Nat) : Nat :=
  opcode &&& 0x0FFF

/-- ops.rs cls_clear_display (00E0): zero every display cell. -/
def cls_clear_display (chip8 : Chip8) (_opcode : Nat) : Chip8 :=
  { chip8 with display := fun _ => 0 }

/-- ops.rs ret_return_from_subroutine (00EE): pc := stack[sp]; sp -= 1.
The u16 decrement is modelled with release-build wraparound. -/
def ret_return_from_subroutine (chip8 : Chip8) (_opcode : Nat) : Chip8 :=
  { chip8 with pc := chip8.stack chip8.sp, sp := (chip8.sp + 65535) % 65536 }

/-- ops.rs jp_jump_to_address (1nnn): pc := opcode & 0x0FFF. -/
def jp_jump_to_address (chip8 : Chip8) (opcode : Nat) : Chip8 :=
  { chip8 with pc := opcode &&& 0x0FFF }

/-- ops.rs call_subroutine (2nnn): sp += 1; stack[sp] := pc; pc := nnn.
Note the pushed value is the pc as it stands when the handler runs. -/
def call_subroutine (chip8 : Chip8) (opcode : Nat) : Chip8 :=
  let subroutine := opcode &&& 0x0FFF
  { chip8 with sp := chip8.sp + 1,
               stack := upd chip8.stack (chip8.sp + 1) chip8.pc,
               pc := subroutine }

/-- ops.rs se_register_byte (3xkk): skip next instruction if Vx = kk. -/
def se_register_byte (chip8 : Chip8) (opcode : Nat) : Chip8 :=
  let v_x := decode_register_x opcode
  let kk := decode_byte opcode
  if chip8.registers v_x = kk then { chip8 with pc := chip8.pc + 2 } else chip8

/-- ops.rs sne_skip_not_equal (4xkk): skip next instruction if Vx differs
from kk. -/
def sne_skip_not_equal (chip8 : Chip8) (opcode : Nat) : Chip8 :=
  let v_x := decode_register_x opcode
  let kk := decode_byte opcode
  if chip8.registers v_x ≠ kk then { chip8 with pc := chip8.pc + 2 } else chip8

/-- ops.rs se_registers (5xy0): skip next instruction if Vx = Vy. -/
def se_registers (chip8 : Chip8) (opcode : Nat) : Chip8 :=
  let p := decode_registers opcode
  if chip8.registers p.1 = chip8.registers p.2 then
    { chip8 with pc := chip8.pc + 2 }
  else chip8

/-- ops.rs ld_register_byte (6xkk): Vx := kk. -/
def ld_register_byte (chip8 : Chip8) (opcode : Nat) : Chip8 :=
  let v_x := decode_register_x opcode
  let kk := decode_byte opcode
  { chip8 with registers := upd chip8.registers v_x kk }

/-- ops.rs add_register_byte (7xkk): Vx := Vx wrapping_add kk. -/
def add_register_byte (chip8 : Chip8) (opcode : Nat) : Chip8 :=
  let v_x := decode_register_x opcode
  let kk := decode_byte opcode
  let value := chip8.registers v_x
  { chip8 with registers := upd chip8.registers v_x ((value + kk) % 256) }

/-- ops.rs ld_registers (8xy0): Vx := Vy. -/
def ld_registers (chip8 : Chip8) (opcode : Nat) : Chip8 :=
  let p := decode_registers opcode
  { chip8 with registers := upd chip8.registers p.1 (chip8.registers p.2) }

/-- ops.rs or_registers (8xy1): Vx := Vx OR Vy. -/
def or_registers (chip8 : Chip8) (opcode : Nat) : Chip8 :=
  let p := decode_registers opcode
  let r := upd chip8.registers p.1 (chip8.registers p.1 ||| chip8.registers p.2)
  { chip8 with registers := r }

/-- ops.rs and_registers (8xy2): Vx := Vx AND Vy. -/
def and_registers (chip8 : Chip8) (opcode : Nat) : Chip8 :=
  let p := decode_registers opcode
  let r := upd chip8.registers p.1 (chip8.registers p.1 &&& chip8.registers p.2)
  { chip8 with registers := r }

/-- ops.rs xor_registers (8xy3): Vx := Vx XOR Vy. -/
def xor_registers (chip8 : Chip8) (opcode : Nat) : Chip8 :=
  let p := decode_registers opcode
  let r := upd chip8.registers p.1 (chip8.registers p.1 ^^^ chip8.registers p.2)
  { chip8 with registers := r }

/-- ops.rs add_registers (8xy4): overflowing_add, sum into Vx, carry into VF,
written in that order. -/
def add_registers (chip8 : Chip8) (opcode : Nat) : Chip8 :=
  let p := decode_registers opcode
  let x := chip8.registers p.1
  let y := chip8.registers p.2
  let r := upd (upd chip8.registers p.1 ((x + y) % 256)) 15 (if 256 ≤ x + y then 1 else 0)
  { chip8 with registers := r }

/-- ops.rs sub_registers (8xy5): Vx := x - y, then VF := (x > y). The u8
subtraction is modelled with release-build wraparound (a debug build would
abort on underflow); the comparison in the source is strict. -/
def sub_registers (chip8 : Chip8) (opcode : Nat) : Chip8 :=
  let p := decode_registers opcode
  let x := chip8.registers p.1
  let y := chip8.registers p.2
  let r := upd (upd chip8.registers p.1 ((x + 256 - y) % 256)) 15 (if x > y then 1 else 0)
  { chip8 with registers := r }

/-- ops.rs shr_registers (8xy6): lsb := Vx & 1; VF := lsb; then Vx is reread
after the VF write and halved. -/
def shr_registers (chip8 : Chip8) (opcode : Nat) : Chip8 :=
  let v_x := decode_register_x opcode
  let lsb := chip8.registers v_x &&& 0b00000001
  let r1 := upd chip8.registers 15 lsb
  { chip8 with registers := upd r1 v_x ((r1 v_x - lsb) / 2) }

/-- ops.rs subn_registers (8xy7): Vx := y - x, then VF := (y > x). The u8
subtraction is modelled with release-build wraparound. -/
def subn_registers (chip8 : Chip8) (opcode : Nat) : Chip8 :=
  let p := decode_registers opcode
  let x := chip8.registers p.1
  let y := chip8.registers p.2
  let r := upd (upd chip8.registers p.1 ((y + 256 - x) % 256)) 15 (if y > x then 1 else 0)
  { chip8 with registers := r }

/-- ops.rs shl_registers (8xyE): the source computes msb as Vx & 0b00000001
(the least-significant bit, although its own doc names the most-significant
bit), writes it to VF, then rereads Vx and doubles it (release wraparound). -/
def shl_registers (chip8 : Chip8) (opcode : Nat) : Chip8 :=
  let v_x := decode_register_x opcode
  let msb := chip8.registers v_x &&& 0b00000001
  let r1 := upd chip8.registers 15 msb
  { chip8 with registers := upd r1 v_x ((r1 v_x * 2) % 256) }

/-- ops.rs ld_i_byte (Annn): i := opcode & 0x0FFF. -/
def ld_i_byte (chip8 : Chip8) (opcode : Nat) : Chip8 :=
  { chip8 with i := opcode &&& 0x0FFF }

/-- ops.rs jp_bnnn (Bnnn): pc := nnn + V0. -/
def jp_bnnn (chip8 : Chip8) (opcode : Nat) : Chip8 :=
  let nnn := decode_short opcode
  let v0 := chip8.registers 0
  { chip8 with pc := nnn + v0 }

/-- ops.rs rnd (Cxkk): Vx := random byte AND kk; the injected generator is
modelled as the stream rng consumed at rng_pos. -/
def rnd (chip8 : Chip8) (opcode : Nat) : Chip8 :=
  let x := decode_register_x opcode
  let kk := decode_byte opcode
  let random := chip8.rng chip8.rng_pos % 256
  { chip8 with registers := upd chip8.registers x (random &&& kk),
               rng_pos := chip8.rng_pos + 1 }

/-- main.rs cycle, 0xD000 branch (lines 119-141): reads n sprite bytes from
memory[i..], computes draw_start = y + (x - 1) * HEIGHT with HEIGHT = 32
(the u8 subtraction x - 1 wraps in a release build), and overwrites one
display cell per sprite byte with the raw byte value. All selectors come
from the stored opcode field, not the fetched word. -/
def drw_inline (s : Chip8) : Chip8 :=
  let n_bytes := s.opcode &&& 0x000F
  let v_x := (s.opcode &&& 0x0F00) >>> 8
  let v_y := (s.opcode &&& 0x00F0) >>> 4
  let x := s.registers v_x
  let y := s.registers v_y
  let start := s.i
  let draw_start := y + ((x + 255) % 256) * 32
  let d2 := (List.range n_bytes).foldl
    (fun d idx => upd d (draw_start + idx) (s.memory (start + idx))) s.display
  { s with display := d2 }

/-- ops.rs ld_bcd, digit extraction (lines 424-428): hundreds := x - x % 100;
x := x - hundreds; tens := x - x % 10; ones := x - tens. These are the values
the source computes and prints. -/
def ld_bcd_digits (x : Nat) : Nat × Nat × Nat :=
  let hundreds := x - x % 100
  let x2 := x - hundreds
  let tens := x2 - x2 % 10
  let ones := x2 - tens
  (hundreds, tens, ones)

/-- ops.rs ld_bcd (Fx33): the body only computes the locals of ld_bcd_digits
from Vx and prints them; no memory cell and no register is written, so the
machine state is returned unchanged. -/
def ld_bcd (chip8 : Chip8) (_opcode : Nat) : Chip8 :=
  chip8

/-- ops.rs ld_store_registers (Fx55): for (idx, register) in
(v_x..16).enumerate() { memory[i + idx] = registers[register] } — the loop
runs over registers v_x..15, not 0..v_x. -/
def ld_store_registers (chip8 : Chip8) (opcode : Nat) : Chip8 :=
  let v_x := decode_register_x opcode
  let i := chip8.i
  let m2 := (List.range (16 - v_x)).foldl
    (fun m idx => upd m (i + idx) (chip8.registers (v_x + idx))) chip8.memory
  { chip8 with memory := m2 }

/-- main.rs cycle, timer section (lines 188-198): delay_timer and sound_timer
each decrement when nonzero; the BEEP print fires when sound_timer equals 1
after the decrement. Returns (delay, sound, beep). -/
def update_timers (delay sound : Nat) : Nat × Nat × Bool :=
  let d := if delay > 0 then delay - 1 else delay
  if sound > 0 then
    let s2 := sound - 1
    (d, s2, s2 == 1)
  else
    (d, sound, false)

/-- main.rs cycle, fetch (lines 76-79): big-endian word from the two memory
bytes at pc. -/
def fetched_opcode (s : Chip8) : Nat :=
  (s.memory s.pc <<< 8) ||| s.memory (s.pc + 1)

/-- main.rs Chip8::cycle (lines 72-201): fetches the word at pc into the
local opcode, but classifies on the stored field s.opcode (which new() sets
to 0 and no code ever reassigns); the matching handler receives the fetched
word. The 0x9000 and 0xE000 arms and all 0xF0xx arms other than 0xF007 and
0xF033 are empty in the source; 0xF033 computes and prints the ld_bcd_digits
locals without touching state. After the match, pc += 2 unconditionally,
then the timers update; the returned Bool is the BEEP event. -/
def cycle (s : Chip8) : Chip8 × Bool :=
  let opcode := fetched_opcode s
  let instruction := s.opcode &&& 0xF000
  let s1 :=
    if instruction = 0x0000 then
      if (s.opcode &&& 0x00FF) = 0x00E0 then cls_clear_display s opcode
      else if (s.opcode &&& 0x00FF) = 0x00EE then ret_return_from_subroutine s opcode
      else s
    else if instruction = 0x1000 then jp_jump_to_address s opcode
    else if instruction = 0x2000 then call_subroutine s opcode
    else if instruction = 0x3000 then se_register_byte s opcode
    else if instruction = 0x4000 then sne_skip_not_equal s opcode
    else if instruction = 0x5000 then se_registers s opcode
    else if instruction = 0x6000 then ld_register_byte s opcode
    else if instruction = 0x7000 then add_register_byte s opcode
    else if instruction = 0x8000 then
      if (s.opcode &&& 0x000F) = 0x0000 then ld_registers s opcode
      else if (s.opcode &&& 0x000F) = 0x0001 then or_registers s opcode
      else if (s.opcode &&& 0x000F) = 0x0002 then and_registers s opcode
      else if (s.opcode &&& 0x000F) = 0x0003 then xor_registers s opcode
      else if (s.opcode &&& 0x000F) = 0x0004 then add_registers s opcode
      else if (s.opcode &&& 0x000F) = 0x0005 then sub_registers s opcode
      else if (s.opcode &&& 0x000F) = 0x0006 then shr_registers s opcode
      else if (s.opcode &&& 0x000F) = 0x0007 then subn_registers s opcode
      else if (s.opcode &&& 0x000F) = 0x000E then shl_registers s opcode
      else s
    else if instruction = 0x9000 then s
    else if instruction = 0xA000 then ld_i_byte s opcode
    else if instruction = 0xB000 then jp_bnnn s opcode
    else if instruction = 0xC000 then rnd s opcode
    else if instruction = 0xD000 then drw_inline s
    else if instruction = 0xE000 then s
    else if instruction = 0xF000 then
      if (s.opcode &&& 0xF0FF) = 0xF007 then
        let r := upd s.registers ((s.opcode &&& 0x0F00) >>> 8) s.delay_timer
        { s with registers := r }
      else s
    else s
  let s2 := { s1 with pc := s1.pc + 2 }
  let t := update_timers s2.delay_timer s2.sound_timer
  ({ s2 with delay_timer := t.1, sound_timer := t.2.1 }, t.2.2)

/-- State produced by Chip8::new (main.rs lines 41-59): pc = 0x200, every
other component zeroed. -/
def zeroState : Chip8 :=
  { pc := 0x200, opcode := 0, i := 0,
    registers := fun _ => 0, memory := fun _ => 0, display := fun _ => 0,
    delay_timer := 0, sound_timer := 0, sp := 0, stack := fun _ => 0,
    rng := fun _ => 0, rng_pos := 0 }

/-- Input state for claim C1: the freshly initialized machine with the two
bytes of JP 0xABC loaded at 0x200; the stored opcode field keeps the initial
value 0 that new() gives it. -/
def sC1 : Chip8 :=
  { zeroState with memory := upd (upd (fun _ => 0) 0x200 0x1A) 0x201 0xBC }

/-- Input state for claim C2: cleared display, stored opcode 0xD011 (draw a
one-byte sprite at (V0, V1)), V0 = 2, V1 = 0, I = 0x300, sprite byte 0x80. -/
def sC2 : Chip8 :=
  { zeroState with opcode := 0xD011, registers := upd (fun _ => 0) 0 2,
                   i := 0x300, memory := upd (fun _ => 0) 0x300 0x80 }

/-- Input state for claim C3: V1 = 5 and V2 = 5, an equal byte pair. -/
def sC3 : Chip8 :=
  { zeroState with registers := upd (upd (fun _ => 0) 1 5) 2 5 }

/-- Input state for claim C4: V1 = 1, whose most-significant bit is 0 and
least-significant bit is 1. -/
def sC4 : Chip8 :=
  { zeroState with registers := upd (fun _ => 0) 1 1 }

/-- Input state for claim C5: V1 = 234, I = 0x300, memory zeroed, stored
opcode 0xF133 (BCD of V1). -/
def sC5 : Chip8 :=
  { zeroState with opcode := 0xF133, registers := upd (fun _ => 0) 1 234,
                   i := 0x300 }

/-- Input state for claim C6: stored opcode and fetched word both 0x12E4
(JP 0x2E4), so the jump branch really executes. -/
def sC6 : Chip8 :=
  { zeroState with opcode := 0x12E4,
                   memory := upd (upd (fun _ => 0) 0x200 0x12) 0x201 0xE4 }

/-- Input state for claim C7: stored opcode and fetched word both 0x2208
(CALL 0x208) at pc = 0x200 with an empty stack. -/
def sC7 : Chip8 :=
  { zeroState with opcode := 0x2208,
                   memory := upd (upd (fun _ => 0) 0x200 0x22) 0x201 0x08 }

/-- Second input state for claim C7: the machine inside the subroutine at
0x208, about to execute RET (stored opcode 0x00EE), with the return slot
stack[1] = 0x200 left by the call from sC7. -/
def tC7 : Chip8 :=
  { zeroState with opcode := 0x00EE, pc := 0x208, sp := 1,
                   stack := upd (fun _ => 0) 1 0x200 }

/-- Input state for claim C8: delay_timer = 3 and sound_timer = 2 before a
step; the stored opcode 0 dispatches to the empty 0x0000 arm, so the step is
otherwise a no-op. -/
def sC8a : Chip8 :=
  { zeroState with delay_timer := 3, sound_timer := 2 }

/-- Second input state for claim C8: sound_timer = 1 before a step, the
transition the claim says must beep. -/
def sC8b : Chip8 :=
  { zeroState with sound_timer := 1 }

/-- Input state for claim C9: register Vr holds 10 + r for every r, and
I = 0x300. -/
def sC9 : Chip8 :=
  { zeroState with registers := fun r => 10 + r, i := 0x300 }

/-- Witness state for claim C3: V1 = 7 and V2 = 3. -/
def sW : Chip8 :=
  { zeroState with registers := upd (upd (fun _ => 0) 1 7) 2 3 }

/-- Claim C1 (code bug evidence): on the freshly initialized machine with
JP 0xABC loaded at pc = 0x200, the word fetched big-endian is 0x1ABC, yet
cycle classifies on the stale stored opcode field (0, never reassigned),
invokes no operation, and merely advances pc to 0x202 — neither 0xABC nor
0xABE, which dispatching the fetched jump would produce. -/
theorem cycle_dispatches_on_stale_opcode :
    fetched_opcode sC1 = 0x1ABC ∧ (cycle sC1).1.pc = 0x202 ∧
    (cycle sC1).1.pc ≠ 0xABC ∧ (cycle sC1).1.pc ≠ 0xABE := by
  decide

/-- Claim C2 (code bug evidence): drawing the one-byte sprite 0x80 at
(V0, V1) = (2, 0) writes the raw byte 128 into a single display cell, and
drawing it a second time leaves that cell at 128 instead of XOR-toggling it
back to 0, while VF stays 0 instead of reporting the collision. -/
theorem drw_overwrites_without_xor :
    (drw_inline sC2).display 32 = 128 ∧
    (drw_inline (drw_inline sC2)).display 32 = 128 ∧
    (drw_inline (drw_inline sC2)).registers 15 = 0 := by
  decide

/-- Claim C3 (counterexample): for the equal byte pair a = b = 5 the claim
requires VF = 1 (a ≥ b and b ≥ a), but the source compares strictly, so both
SUB V1,V2 and SUBN V1,V2 leave VF = 0. -/
theorem sub_vf_not_set_on_equal :
    (sub_registers sC3 0x8125).registers 15 ≠ 1 ∧
    (subn_registers sC3 0x8127).registers 15 ≠ 1 := by
  decide

/-- Claim C3 (amended): for byte pairs (a, b) in Vx and Vy with Vx not the
flag register, SUB Vx,Vy stores (a − b) mod 256 in Vx with VF = 1 iff a > b
(strict), and SUBN Vx,Vy stores (b − a) mod 256 in Vx with VF = 1 iff b > a
(strict); the wrapping arithmetic never faults. -/
theorem sub_subn_strict_flag (s : Chip8) (op a b : Nat)
    (ha : a < 256) (hb : b < 256)
    (hx : s.registers (decode_register_x op) = a)
    (hy : s.registers (decode_register_y op) = b)
    (hvx : decode_register_x op ≠ 15) :
    ((sub_registers s op).registers (decode_register_x op) : Int) = ((a : Int) - (b : Int)) % 256 ∧
    (sub_registers s op).registers 15 = (if a > b then 1 else 0) ∧
    ((subn_registers s op).registers (decode_register_x op) : Int) = ((b : Int) - (a : Int)) % 256 ∧
    (subn_registers s op).registers 15 = (if b > a then 1 else 0) := by
  refine ⟨?_, ?_, ?_, ?_⟩
  · simp [sub_registers, decode_registers, upd, hx, hy, hvx]
    omega
  · simp [sub_registers, decode_registers, upd, hx, hy]
  · simp [subn_registers, decode_registers, upd, hx, hy, hvx]
    omega
  · simp [subn_registers, decode_registers, upd, hx, hy]

/-- Claim C3 (witness): the amended statement evaluated at V1 = 7, V2 = 3
with opcode 0x8125. -/
theorem sub_subn_strict_flag_witness :
    ((sub_registers sW 0x8125).registers (decode_register_x 0x8125) : Int) = (((7 : Nat) : Int) - ((3 : Nat) : Int)) % 256 ∧
    (sub_registers sW 0x8125).registers 15 = (if 7 > 3 then 1 else 0) ∧
    ((subn_registers sW 0x8125).registers (decode_register_x 0x8125) : Int) = (((3 : Nat) : Int) - ((7 : Nat) : Int)) % 256 ∧
    (subn_registers sW 0x8125).registers 15 = (if 3 > 7 then 1 else 0) :=
  sub_subn_strict_flag sW 0x8125 7 3 (by decide) (by decide) (by decide)
    (by decide) (by decide)

/-- Claim C4 (code bug evidence): for V1 = 1 the most-significant bit is 0,
so the claim requires VF = 0 after SHL V1, but the source masks with
0b00000001 and sets VF = 1 (the least-significant bit); the doubled value 2
is stored in V1. -/
theorem shl_uses_lsb_for_vf :
    (shl_registers sC4 0x810E).registers 15 = 1 ∧
    sC4.registers 1 >>> 7 = 0 ∧
    (shl_registers sC4 0x810E).registers 1 = 2 := by
  decide

/-- Claim C5 (code bug evidence): for Vx = 234 the source computes the
multiples (200, 30, 4) rather than the digits (2, 3, 4), and neither ld_bcd
nor the inline 0xF033 arm of cycle writes anything: memory[I..I+2] stays 0
instead of receiving 2, 3, 4. -/
theorem ld_bcd_writes_nothing :
    ld_bcd_digits 234 = (200, 30, 4) ∧
    (ld_bcd sC5 0xF133).memory 0x300 = 0 ∧
    (ld_bcd sC5 0xF133).memory 0x301 = 0 ∧
    (ld_bcd sC5 0xF133).memory 0x302 = 0 ∧
    (cycle sC5).1.memory 0x300 = 0 := by
  decide

/-- Claim C6 (code bug evidence): with both the stored opcode field and the
fetched word equal to 0x12E4, the jump handler sets pc to 0x2E4 but the
unconditional pc += 2 at the end of cycle leaves pc = 0x2E6, not 0x2E4. -/
theorem jp_then_unconditional_increment :
    fetched_opcode sC6 = 0x12E4 ∧ (cycle sC6).1.pc = 0x2E6 ∧
    (cycle sC6).1.pc ≠ 0x2E4 := by
  decide

/-- Claim C7 (counterexample): stepping CALL 0x208 at p = 0x200 pushes
0x200 — the address of the CALL itself — onto the stack, not 0x202, the
address of the instruction following the CALL as the claim states. -/
theorem call_pushes_own_address :
    (cycle sC7).1.stack 1 = 0x200 ∧ (cycle sC7).1.stack 1 ≠ 0x202 := by
  decide

/-- Claim C7 (amended): a step dispatching CALL at address p pushes p itself
(the address of the CALL instruction) into stack[sp + 1]; when the
subroutine later steps a RET with that slot and stack depth intact, the RET
pops p and the unconditional post-step increment lands the program counter
on p + 2, the instruction following the CALL, with the stack pointer back at
its pre-call value. -/
theorem call_ret_roundtrip (s t : Chip8)
    (hcall : (s.opcode &&& 0xF000) = 0x2000)
    (hsp : s.sp < 15)
    (hret0 : (t.opcode &&& 0xF000) = 0x0000)
    (hretE : (t.opcode &&& 0x00FF) = 0x00EE)
    (hsp2 : t.sp = s.sp + 1)
    (hstk : t.stack (s.sp + 1) = (cycle s).1.stack (s.sp + 1)) :
    (cycle s).1.stack (s.sp + 1) = s.pc ∧
    (cycle t).1.pc = s.pc + 2 ∧
    (cycle t).1.sp = s.sp := by
  have h1 : (cycle s).1.stack (s.sp + 1) = s.pc := by
    simp [cycle, call_subroutine, upd, hcall]
  have h2 : (cycle t).1.pc = t.stack t.sp + 2 := by
    simp [cycle, ret_return_from_subroutine, hret0, hretE]
  have h3 : (cycle t).1.sp = (t.sp + 65535) % 65536 := by
    simp [cycle, ret_return_from_subroutine, hret0, hretE]
  refine ⟨h1, ?_, ?_⟩
  · rw [h2, hsp2, hstk, h1]
  · rw [h3, hsp2]
    omega

/-- Claim C7 (witness): the amended statement evaluated on the concrete
CALL state sC7 and the matching RET state tC7. -/
theorem call_ret_roundtrip_witness :
    (cycle sC7).1.stack (sC7.sp + 1) = sC7.pc ∧
    (cycle tC7).1.pc = sC7.pc + 2 ∧
    (cycle tC7).1.sp = sC7.sp :=
  call_ret_roundtrip sC7 tC7 (by decide) (by decide) (by decide) (by decide)
    (by decide) (by decide)

/-- Claim C8 (code bug evidence): timers change inside cycle itself (one
decrement per instruction step, no separate tick operation), and the BEEP
event fires on the 2 → 1 transition of sound_timer while the 1 → 0
transition the claim requires stays silent. -/
theorem timer_beep_on_two_to_one :
    (cycle sC8a).2 = true ∧ (cycle sC8a).1.sound_timer = 1 ∧
    (cycle sC8a).1.delay_timer = 2 ∧
    (cycle sC8b).2 = false ∧ (cycle sC8b).1.sound_timer = 0 := by
  decide

/-- Claim C9 (code bug evidence): with Vr = 10 + r, I = 0x300 and x = 2, the
claim requires memory[0x300..0x302] = (V0, V1, V2) = (10, 11, 12) and no
other cell written; the source instead copies registers V2..V15, so
memory[0x300] = 12, memory[0x301] = 13, and cells through 0x30D are written. -/
theorem store_registers_copies_upper_block :
    (ld_store_registers sC9 0xF255).memory 0x300 = 12 ∧
    (ld_store_registers sC9 0xF255).memory 0x301 = 13 ∧
    (ld_store_registers sC9 0xF255).memory 0x303 = 15 ∧
    (ld_store_registers sC9 0xF255).memory 0x30D = 25 ∧
    sC9.registers 0 = 10 := by
  decide

/-- Claim C10 (confirmed): for every opcode value, the decoded register
indices from bits 8-11 and 4-7 are below 16, so accesses to the 16-entry
register file through them are within bounds. -/
theorem decode_register_indices_lt_sixteen (opcode : Nat) :
    decode_register_x opcode < 16 ∧ decode_register_y opcode < 16 := by
  have hx : (opcode &&& 0x0F00) >>> 8 ≤ 0x0F00 >>> 8 := by
    rw [Nat.shiftRight_eq_div_pow, Nat.shiftRight_eq_div_pow]
    exact Nat.div_le_div_right Nat.and_le_right
  have hy : (opcode &&& 0x00F0) >>> 4 ≤ 0x00F0 >>> 4 := by
    rw [Nat.shiftRight_eq_div_pow, Nat.shiftRight_eq_div_pow]
    exact Nat.div_le_div_right Nat.and_le_right
  have h1 : (0x0F00 : Nat) >>> 8 = 15 := by decide
  have h2 : (0x00F0 : Nat) >>> 4 = 15 := by decide
  constructor
  · unfold decode_register_x
    omega
  · unfold decode_register_y
    omega

end Chip8Emu
